import Mathlib

/-!
Shallow embedding of src/start_dev.py.

The script starts the Flask backend (run_backend, in a daemon thread), waits a
fixed 2 seconds, then runs the Vite frontend dev server (run_frontend, in the
main thread).  A SIGINT handler prints a message and calls sys.exit(0).

Modelling conventions:
* External behaviour that the script cannot control is collected in an
  environment record Env: whether the backend working directory exists,
  how each child subprocess behaves (fails to spawn, exits with a code while
  the script is alive, or outruns the script), whether the backend child
  exits during the 2-second startup sleep, and whether (and when) the
  operator sends the interactive interrupt signal.
* An execution is rendered as a deterministic list of observable actions
  (trace).  The daemon thread body runs promptly after Thread.start, so its
  actions up to the subprocess spawn are placed at the start point; the
  backend child exit (and the resulting error print) is placed either during
  the sleep (when Env says it exits that early) or after the frontend phase.
  When the script exits on an interrupt, backend exit actions that have not
  yet happened are omitted: the process ends before they can occur.
* Exceptions are the Python exceptions this script can see.  SystemExit and
  KeyboardInterrupt derive from BaseException only, so the except Exception
  clause does not catch them; sys.exit inside the SIGINT handler raises
  SystemExit at the point the main thread is currently executing.  Signals
  are delivered to the main thread only, never to the daemon thread.
* The model tracks the signals the script process sends to its children.
  No statement of the script calls terminate(), so Action.terminated exists
  only so the spec claims about it can be stated and never occurs in any
  trace.  A kill, however, does occur on one path: the CPython
  implementation of subprocess.run wraps its wait in a bare except clause
  that calls process.kill() on the child and re-raises (present since the
  function was introduced).  When the SIGINT handler raises SystemExit(0)
  while the main thread is blocked in subprocess.run waiting on the frontend
  child, that clause kills the frontend child before the SystemExit
  propagates on, so Action.killed .frontend is recorded.  The daemon thread
  never receives signals, so the backend child is never killed or signalled
  by the script.
-/

namespace StartDev

/-- The two child processes the script manages. -/
inductive Proc
  | backend
  | frontend
  deriving DecidableEq, Repr

/-- How a child subprocess behaves, from the point of view of the script. -/
inductive ProcOutcome
  | noSpawn
  | exits (code : Nat)
  | runs
  deriving DecidableEq, Repr

/-- When the operator interrupt (SIGINT) arrives, if at all. -/
inductive InterruptTime
  | duringSleep
  | duringFrontend
  deriving DecidableEq, Repr

/-- The external environment of one execution of the script. -/
structure Env where
  backendDirExists : Bool
  backendOutcome : ProcOutcome
  backendExitsDuringSleep : Bool
  frontendOutcome : ProcOutcome
  interrupt : Option InterruptTime
  deriving DecidableEq, Repr

/-- Observable actions of the script. -/
inductive Action
  | registeredSigint
  | printed (msg : String)
  | threadStarted
  | launched (p : Proc)
  | exited (p : Proc) (code : Nat)
  | slept (seconds : Nat)
  | terminated (p : Proc)
  | killed (p : Proc)
  | sysExit (code : Nat)
  deriving DecidableEq, Repr

/-- The Python exceptions relevant to this script. -/
inductive PyExc
  | keyboardInterrupt
  | systemExit (code : Nat)
  | fileNotFoundError
  | calledProcessError (code : Nat)
  deriving DecidableEq, Repr

/-- Whether the exception derives from Exception (as opposed to deriving
directly from BaseException, which except Exception does not catch). -/
def PyExc.isExceptionClass : PyExc → Bool
  | .keyboardInterrupt => false
  | .systemExit _ => false
  | .fileNotFoundError => true
  | .calledProcessError _ => true

/-- Rendering of the exception used in the printed error messages. -/
def PyExc.message : PyExc → String
  | .keyboardInterrupt => "KeyboardInterrupt"
  | .systemExit c => toString c
  | .fileNotFoundError => "No such file or directory"
  | .calledProcessError c => "Command returned non-zero exit status " ++ toString c

def backendErrMsg (e : PyExc) : String := "Backend error: " ++ e.message

def frontendErrMsg (e : PyExc) : String := "Frontend error: " ++ e.message

/-- Message printed by the SIGINT handler before sys.exit(0). -/
def shutdownServersMsg : String := "\nShutting down servers..."

/-- Message printed by the dead top-level except KeyboardInterrupt clause. -/
def shuttingDownMsg : String := "\nShutting down..."

/-- The four start-up banner prints of the main block. -/
def startBanner : List Action :=
  [.printed "Starting Hospital Management System...",
   .printed "Backend will be available at: http://localhost:5000",
   .printed "Frontend will be available at: http://localhost:5173",
   .printed "Press Ctrl+C to stop both servers\n"]

/-- Model of subprocess.run(cmd, check=True) on process p whose behaviour is
o.  Returns (actions, exception raised in the calling thread, still blocked
when the script ends).  interrupted means SIGINT arrives in the main thread
while it is blocked here waiting on the child: the handler prints, then
sys.exit(0) raises SystemExit at that point, and the bare except clause
inside subprocess.run then calls process.kill() on the spawned child and
re-raises the SystemExit — hence the killed action after the sys.exit call
in both interrupted branches.  check=True turns a nonzero exit code into
CalledProcessError; a missing executable raises FileNotFoundError and spawns
no child (so an interrupt can kill nothing on the noSpawn path). -/
def subprocessRun (p : Proc) (o : ProcOutcome) (interrupted : Bool) :
    List Action × Option PyExc × Bool :=
  match o with
  | .noSpawn => ([], some .fileNotFoundError, false)
  | .exits c =>
    if interrupted then
      ([.launched p, .printed shutdownServersMsg, .sysExit 0, .killed p],
       some (.systemExit 0), false)
    else
      ([.launched p, .exited p c],
       if c = 0 then none else some (.calledProcessError c), false)
  | .runs =>
    if interrupted then
      ([.launched p, .printed shutdownServersMsg, .sysExit 0, .killed p],
       some (.systemExit 0), false)
    else
      ([.launched p], none, true)

/-- The two except clauses wrapped around each body:
except KeyboardInterrupt: pass, then except Exception as e: print(errPre + e).
Anything deriving only from BaseException (SystemExit) passes through. -/
def handleExcept (errPre : String) : Option PyExc → List Action × Option PyExc
  | none => ([], none)
  | some .keyboardInterrupt => ([], none)
  | some e =>
    if e.isExceptionClass then ([.printed (errPre ++ e.message)], none)
    else ([], some e)

/-- Result of running one of the two run functions: the actions it performed,
the exception it propagated to its caller (if any), and whether it is still
blocked inside subprocess.run when the script ends. -/
structure FnResult where
  actions : List Action
  raised : Option PyExc
  blocked : Bool
  deriving DecidableEq, Repr

/-- run_backend: chdir into the backend directory (FileNotFoundError when it
does not exist), then subprocess.run([sys.executable, app.py], check=True),
all inside the try/except pair.  It runs in the daemon thread, so it is never
interrupted by SIGINT (signals go to the main thread). -/
def run_backend (env : Env) : FnResult :=
  let body :=
    if env.backendDirExists then subprocessRun .backend env.backendOutcome false
    else ([], some PyExc.fileNotFoundError, false)
  let h := handleExcept "Backend error: " body.2.1
  { actions := body.1 ++ h.1, raised := h.2, blocked := body.2.2 }

/-- run_frontend: chdir into the project directory (the directory containing
the script, which exists), then subprocess.run([npm, run, dev], check=True),
inside the same try/except pair.  It runs in the main thread, so the SIGINT
handler may fire while it waits on the child (interrupted). -/
def run_frontend (env : Env) (interrupted : Bool) : FnResult :=
  let body := subprocessRun .frontend env.frontendOutcome interrupted
  let h := handleExcept "Frontend error: " body.2.1
  { actions := body.1 ++ h.1, raised := h.2, blocked := body.2.2 }

/-- Actions of the backend daemon thread up to (and including) the subprocess
spawn; they happen right at Thread.start. -/
def backendStartActions (env : Env) : List Action :=
  if env.backendDirExists then
    match env.backendOutcome with
    | .noSpawn => [.printed (backendErrMsg .fileNotFoundError)]
    | _ => [.launched .backend]
  else [.printed (backendErrMsg .fileNotFoundError)]

/-- Actions of the backend daemon thread after the spawn: observing the child
exit and, when check=True raised CalledProcessError, printing the error. -/
def backendRestActions (env : Env) : List Action :=
  if env.backendDirExists then
    match env.backendOutcome with
    | .exits c =>
      [.exited .backend c] ++
        (if c = 0 then [] else [.printed (backendErrMsg (.calledProcessError c))])
    | _ => []
  else []

/-- The top-level try around run_frontend: except KeyboardInterrupt prints
and exits 0.  run_frontend already catches KeyboardInterrupt itself, so this
clause is dead; SystemExit (from the SIGINT handler) passes through it. -/
def toplevelExcept : Option PyExc → List Action
  | some .keyboardInterrupt => [.printed shuttingDownMsg, .sysExit 0]
  | _ => []

/-- The observable trace of one execution of the script under environment
env: register the SIGINT handler, print the banner, start the backend daemon
thread, sleep 2 seconds, run the frontend in the main thread.  An interrupt
during the sleep makes the handler exit the script before the frontend is
launched; an interrupt during the frontend phase raises SystemExit there
(or, when the frontend failed to spawn and run_frontend already returned,
fires just after it returns). -/
def trace (env : Env) : List Action :=
  [.registeredSigint] ++ startBanner ++ [.threadStarted] ++ backendStartActions env ++
  (if env.backendExitsDuringSleep then backendRestActions env else []) ++
  (match env.interrupt with
   | some .duringSleep => [.printed shutdownServersMsg, .sysExit 0]
   | some .duringFrontend =>
     let r := run_frontend env true
     [.slept 2] ++ r.actions ++ toplevelExcept r.raised ++
       (if r.raised = none then [.printed shutdownServersMsg, .sysExit 0] else [])
   | none =>
     let r := run_frontend env false
     [.slept 2] ++ r.actions ++ toplevelExcept r.raised ++
       (if env.backendExitsDuringSleep then [] else backendRestActions env))

/-- The exit status of the script process itself: some code when the process
ends, none when it blocks forever (frontend child never exits and no
interrupt ever arrives).  Every terminating path ends in sys.exit(0), a
SystemExit(0) propagating to the top, or falling off the end of the script. -/
def scriptExit (env : Env) : Option Nat :=
  match env.interrupt with
  | some _ => some 0
  | none => if (run_frontend env false).blocked then none else some 0

/-- A signal sent by the script process to a child.  No statement of the
script sends one; the only signal any trace contains is the kill issued by
the except clause of subprocess.run on the interrupted frontend path. -/
def isSignal : Action → Bool
  | .terminated _ => true
  | .killed _ => true
  | _ => false

/-- Number of launches of process p recorded in a list of actions. -/
def launchCount (p : Proc) : List Action → Nat
  | [] => 0
  | a :: l => (if a = Action.launched p then 1 else 0) + launchCount p l

/-- Backend exits with code 1 after the sleep; frontend keeps running. -/
def envC1 : Env := ⟨true, .exits 1, false, .runs, none⟩

/-- Backend exits with code 1 during the sleep; frontend exits cleanly. -/
def envC2 : Env := ⟨true, .exits 1, true, .exits 0, none⟩

/-- The backend working directory does not exist; frontend exits cleanly. -/
def envC3 : Env := ⟨false, .exits 0, false, .exits 0, none⟩

/-- Both children launched and running; SIGINT during the frontend phase. -/
def envC4 : Env := ⟨true, .runs, false, .runs, some .duringFrontend⟩

/-- Backend exits with code 1 during the sleep; frontend exits cleanly. -/
def envC5 : Env := ⟨true, .exits 1, true, .exits 0, none⟩

/-- Clean run: both children launch, both exit with code 0, no interrupt. -/
def envC6 : Env := ⟨true, .exits 0, false, .exits 0, none⟩

/-- Both children running; SIGINT during the frontend phase; the frontend
never exits on its own (it ignores any graceful termination). -/
def envC7 : Env := ⟨true, .runs, false, .runs, some .duringFrontend⟩

/-- Uninterrupted run with the frontend child outliving any wait: no kill is
ever issued on this path. -/
def envC7b : Env := ⟨true, .exits 0, false, .runs, none⟩

/-- Both children running; SIGINT during the frontend phase: the path on
which the subprocess.run except clause kills the frontend child. -/
def envC10k : Env := ⟨true, .runs, false, .runs, some .duringFrontend⟩

/-- Frontend still running when SIGINT arrives during the frontend phase. -/
def envC9 : Env := ⟨true, .exits 0, false, .runs, some .duringFrontend⟩

/-- Backend child outlives the script: frontend exits 0, script ends while
the daemon thread is still blocked waiting on the backend child. -/
def envC10 : Env := ⟨true, .runs, false, .exits 0, none⟩

/-- Interrupt arrives during the startup sleep while both would-be children
are configured to keep running. -/
def envC10i : Env := ⟨true, .runs, false, .runs, some .duringSleep⟩

/-- Backend fails with exit code 1 after launch; frontend exits cleanly; no
interrupt. -/
def envC9b : Env := ⟨true, .exits 1, false, .exits 0, none⟩

/-- Number of exit observations of process p recorded in a list of actions. -/
def exitedCount (p : Proc) : List Action → Nat
  | [] => 0
  | .exited q _ :: l => (if q = p then 1 else 0) + exitedCount p l
  | _ :: l => exitedCount p l

lemma startBanner_no_signal : ∀ a ∈ startBanner, isSignal a = false := by decide

lemma shutdownPair_no_signal :
    ∀ a ∈ [Action.printed shutdownServersMsg, Action.sysExit 0], isSignal a = false := by decide

lemma sig_false_true {a : Action} (h1 : isSignal a = false) (h2 : isSignal a = true) :
    False := by
  rw [h1] at h2
  exact Bool.noConfusion h2

/-- The backend wait is never interrupted (daemon thread), and on that path
subprocess.run sends no signal. -/
lemma subprocessRun_no_signal_backend (o : ProcOutcome) :
    ∀ a ∈ (subprocessRun .backend o false).1, isSignal a = false := by
  rcases o with _ | c | _ <;> simp [subprocessRun, isSignal]

/-- The only signal the frontend wait can produce is the kill of the frontend
child by the except clause of subprocess.run, and only when interrupted. -/
lemma subprocessRun_signal_frontend (o : ProcOutcome) (i : Bool) :
    ∀ a ∈ (subprocessRun .frontend o i).1, isSignal a = true →
      a = Action.killed .frontend ∧ i = true := by
  rcases o with _ | c | _ <;> cases i <;> simp [subprocessRun, isSignal]

lemma handleExcept_no_signal (s : String) (e : Option PyExc) :
    ∀ a ∈ (handleExcept s e).1, isSignal a = false := by
  rcases e with _ | (_ | c | _ | c) <;> simp [handleExcept, PyExc.isExceptionClass, isSignal]

lemma run_backend_no_signal (env : Env) :
    ∀ a ∈ (run_backend env).actions, isSignal a = false := by
  intro a ha
  rcases env with ⟨bd, bo, bs, fo, it⟩
  cases bd
  · simp [run_backend, handleExcept, PyExc.isExceptionClass, isSignal] at ha
    subst ha; rfl
  · simp only [run_backend, List.mem_append] at ha
    rcases ha with ha | ha
    · exact subprocessRun_no_signal_backend _ a ha
    · exact handleExcept_no_signal _ _ a ha

/-- The only signal run_frontend can record is the kill of the frontend
child, and only in an interrupted call. -/
lemma run_frontend_signal (env : Env) (i : Bool) :
    ∀ a ∈ (run_frontend env i).actions, isSignal a = true →
      a = Action.killed .frontend ∧ i = true := by
  intro a ha hs
  simp only [run_frontend, List.mem_append] at ha
  rcases ha with ha | ha
  · exact subprocessRun_signal_frontend _ _ a ha hs
  · exact (sig_false_true (handleExcept_no_signal _ _ a ha) hs).elim

/-- An uninterrupted run_frontend call records no signal at all. -/
lemma run_frontend_no_signal (env : Env) :
    ∀ a ∈ (run_frontend env false).actions, isSignal a = false := by
  intro a ha
  cases hsig : isSignal a
  · rfl
  · exact absurd (run_frontend_signal env false a ha hsig).2 (by simp)

lemma backendStartActions_no_signal (env : Env) :
    ∀ a ∈ backendStartActions env, isSignal a = false := by
  rcases env with ⟨bd, bo, bs, fo, it⟩
  cases bd <;> rcases bo with _ | c | _ <;> simp [backendStartActions, isSignal]

lemma backendRestActions_no_signal (env : Env) :
    ∀ a ∈ backendRestActions env, isSignal a = false := by
  rcases env with ⟨bd, bo, bs, fo, it⟩
  cases bd <;> rcases bo with _ | c | _ <;> simp [backendRestActions, isSignal]

lemma toplevelExcept_no_signal (e : Option PyExc) :
    ∀ a ∈ toplevelExcept e, isSignal a = false := by
  rcases e with _ | (_ | c | _ | c) <;> simp [toplevelExcept, isSignal]

lemma ite_no_signal (b : Prop) [Decidable b] (l₁ l₂ : List Action)
    (h₁ : ∀ a ∈ l₁, isSignal a = false) (h₂ : ∀ a ∈ l₂, isSignal a = false) :
    ∀ a ∈ (if b then l₁ else l₂), isSignal a = false := by
  split <;> assumption

lemma nil_no_signal : ∀ a ∈ ([] : List Action), isSignal a = false := by
  simp

/-- The only signal any execution trace contains is the kill of the frontend
child by the except clause of subprocess.run, and only when the interrupt
arrives during the frontend wait. -/
lemma trace_signal (env : Env) (a : Action) (ha : a ∈ trace env)
    (hs : isSignal a = true) :
    a = Action.killed .frontend ∧ env.interrupt = some .duringFrontend := by
  rcases env with ⟨bd, bo, bs, fo, it⟩
  rcases it with _ | (_ | _) <;>
    simp only [trace, List.append_assoc, List.mem_append, List.mem_cons,
      List.not_mem_nil, or_false] at ha <;>
    casesm* _ ∨ _
  all_goals
    first
      | (subst_vars; simp [isSignal] at hs; done)
      | exact (sig_false_true (startBanner_no_signal a (by assumption)) hs).elim
      | exact (sig_false_true (backendStartActions_no_signal _ a (by assumption)) hs).elim
      | exact (sig_false_true
          (ite_no_signal _ _ _ (backendRestActions_no_signal _) nil_no_signal a
            (by assumption)) hs).elim
      | exact (sig_false_true
          (ite_no_signal _ _ _ nil_no_signal (backendRestActions_no_signal _) a
            (by assumption)) hs).elim
      | exact (sig_false_true
          (ite_no_signal _ _ _ shutdownPair_no_signal nil_no_signal a
            (by assumption)) hs).elim
      | exact (sig_false_true (run_frontend_no_signal _ a (by assumption)) hs).elim
      | exact (sig_false_true (toplevelExcept_no_signal _ a (by assumption)) hs).elim
      | exact ⟨(run_frontend_signal _ true a (by assumption) hs).1, rfl⟩

/-- No execution trace contains a terminate sent to any child: the script has
no terminate() statement. -/
lemma terminated_not_mem (env : Env) (p : Proc) : Action.terminated p ∉ trace env := by
  intro h
  have := trace_signal env _ h rfl
  exact absurd this.1 (by simp)

/-- The backend child is never killed by the script: the daemon thread never
receives the interrupt, so its subprocess.run never takes the kill path. -/
lemma killed_backend_not_mem (env : Env) : Action.killed .backend ∉ trace env := by
  intro h
  have := trace_signal env _ h rfl
  exact absurd this.1 (by simp)

/-- Absent an interrupt no child is ever killed. -/
lemma killed_not_mem_of_no_interrupt (env : Env) (p : Proc)
    (hI : env.interrupt = none) : Action.killed p ∉ trace env := by
  intro h
  have := trace_signal env _ h rfl
  rw [hI] at this
  exact absurd this.2 (by simp)

/-- When the interrupt arrives while subprocess.run waits on a spawned
frontend child, that child is killed. -/
lemma killed_frontend_mem (env : Env) (hI : env.interrupt = some .duringFrontend)
    (hfo : env.frontendOutcome ≠ .noSpawn) :
    Action.killed .frontend ∈ trace env := by
  rcases env with ⟨bd, bo, bs, fo, it⟩
  simp only at hI hfo
  subst hI
  rcases fo with _ | c | _
  · exact absurd rfl hfo
  · simp [trace, run_frontend, subprocessRun, handleExcept, PyExc.isExceptionClass]
  · simp [trace, run_frontend, subprocessRun, handleExcept, PyExc.isExceptionClass]

lemma launchCount_append (p : Proc) (l₁ l₂ : List Action) :
    launchCount p (l₁ ++ l₂) = launchCount p l₁ + launchCount p l₂ := by
  induction l₁ with
  | nil => simp [launchCount]
  | cons a l ih => simp [launchCount, ih]; omega

lemma launchCount_ite_zero (b : Prop) [Decidable b] (p : Proc) (l₁ l₂ : List Action)
    (h₁ : launchCount p l₁ = 0) (h₂ : launchCount p l₂ = 0) :
    launchCount p (if b then l₁ else l₂) = 0 := by
  split <;> assumption

lemma launchCount_ite_le (b : Prop) [Decidable b] (p : Proc) (l₁ l₂ : List Action) (n : Nat)
    (h₁ : launchCount p l₁ ≤ n) (h₂ : launchCount p l₂ ≤ n) :
    launchCount p (if b then l₁ else l₂) ≤ n := by
  split <;> assumption

lemma launchCount_backendStart_backend (env : Env) :
    launchCount Proc.backend (backendStartActions env) ≤ 1 := by
  rcases env with ⟨bd, bo, bs, fo, it⟩
  cases bd <;> rcases bo with _ | c | _ <;> simp [backendStartActions, launchCount]

lemma launchCount_backendStart_frontend (env : Env) :
    launchCount Proc.frontend (backendStartActions env) = 0 := by
  rcases env with ⟨bd, bo, bs, fo, it⟩
  cases bd <;> rcases bo with _ | c | _ <;> simp [backendStartActions, launchCount]

lemma launchCount_backendRest (p : Proc) (env : Env) :
    launchCount p (backendRestActions env) = 0 := by
  rcases env with ⟨bd, bo, bs, fo, it⟩
  cases bd <;> rcases bo with _ | c | _ <;>
    first
      | rfl
      | (by_cases hc : c = 0 <;>
          simp [backendRestActions, launchCount, launchCount_append, hc])

lemma launchCount_handleExcept (p : Proc) (s : String) (e : Option PyExc) :
    launchCount p (handleExcept s e).1 = 0 := by
  rcases e with _ | (_ | c | _ | c) <;> rfl

lemma launchCount_subprocessRun_backend_frontend (o : ProcOutcome) (i : Bool) :
    launchCount Proc.backend (subprocessRun .frontend o i).1 = 0 := by
  rcases o with _ | c | _ <;> cases i <;> rfl

lemma launchCount_subprocessRun_frontend_frontend (o : ProcOutcome) (i : Bool) :
    launchCount Proc.frontend (subprocessRun .frontend o i).1 ≤ 1 := by
  rcases o with _ | c | _ <;> cases i <;> simp [subprocessRun, launchCount]

lemma launchCount_run_frontend_backend (env : Env) (i : Bool) :
    launchCount Proc.backend (run_frontend env i).actions = 0 := by
  show launchCount Proc.backend
    ((subprocessRun .frontend env.frontendOutcome i).1 ++
      (handleExcept "Frontend error: " (subprocessRun .frontend env.frontendOutcome i).2.1).1) = 0
  rw [launchCount_append, launchCount_subprocessRun_backend_frontend,
    launchCount_handleExcept]

lemma launchCount_run_frontend_frontend (env : Env) (i : Bool) :
    launchCount Proc.frontend (run_frontend env i).actions ≤ 1 := by
  show launchCount Proc.frontend
    ((subprocessRun .frontend env.frontendOutcome i).1 ++
      (handleExcept "Frontend error: " (subprocessRun .frontend env.frontendOutcome i).2.1).1) ≤ 1
  rw [launchCount_append, launchCount_handleExcept]
  simpa using launchCount_subprocessRun_frontend_frontend env.frontendOutcome i

lemma launchCount_toplevelExcept (p : Proc) (e : Option PyExc) :
    launchCount p (toplevelExcept e) = 0 := by
  rcases e with _ | (_ | c | _ | c) <;> rfl

/-- When the backend directory exists and the executable spawns, the daemon
thread records exactly the launch before the main thread starts sleeping. -/
lemma backendStartActions_launch (env : Env) (hbd : env.backendDirExists = true)
    (hbo : env.backendOutcome ≠ .noSpawn) :
    backendStartActions env = [Action.launched .backend] := by
  rcases env with ⟨bd, bo, bs, fo, it⟩
  simp only at hbd hbo
  subst hbd
  rcases bo with _ | c | _
  · exact absurd rfl hbo
  · rfl
  · rfl

/-- Whenever the frontend executable spawns, the frontend phase starts with
its launch action. -/
lemma run_frontend_actions_cons (env : Env) (i : Bool) (hfo : env.frontendOutcome ≠ .noSpawn) :
    ∃ t, (run_frontend env i).actions = Action.launched .frontend :: t := by
  rcases env with ⟨bd, bo, bs, fo, it⟩
  simp only at hfo
  rcases fo with _ | c | _
  · exact absurd rfl hfo
  · cases i
    · by_cases hc : c = 0
      · subst hc; exact ⟨[Action.exited .frontend 0], rfl⟩
      · exact ⟨[Action.exited .frontend c,
          Action.printed ("Frontend error: " ++ (PyExc.calledProcessError c).message)], by
            simp [run_frontend, subprocessRun, handleExcept, PyExc.isExceptionClass, hc]⟩
    · exact ⟨[Action.printed shutdownServersMsg, Action.sysExit 0,
        Action.killed .frontend], by
          simp [run_frontend, subprocessRun, handleExcept, PyExc.isExceptionClass]⟩
  · cases i
    · exact ⟨[], rfl⟩
    · exact ⟨[Action.printed shutdownServersMsg, Action.sysExit 0,
        Action.killed .frontend], by
          simp [run_frontend, subprocessRun, handleExcept, PyExc.isExceptionClass]⟩

/-- Absent an interrupt, run_frontend catches everything its body can raise. -/
lemma run_frontend_raised_none (env : Env) : (run_frontend env false).raised = none := by
  rcases env with ⟨bd, bo, bs, fo, it⟩
  rcases fo with _ | c | _
  · rfl
  · by_cases hc : c = 0
    · subst hc; rfl
    · simp [run_frontend, subprocessRun, handleExcept, PyExc.isExceptionClass, hc]
  · rfl

/-- The only exception run_frontend can propagate is the SystemExit raised by
the SIGINT handler. -/
lemma run_frontend_raised_cases (env : Env) (i : Bool) :
    (run_frontend env i).raised = none ∨
      (run_frontend env i).raised = some (.systemExit 0) := by
  rcases env with ⟨bd, bo, bs, fo, it⟩
  rcases fo with _ | c | _ <;> cases i
  · left; rfl
  · left; rfl
  · by_cases hc : c = 0
    · subst hc; left; rfl
    · left; simp [run_frontend, subprocessRun, handleExcept, PyExc.isExceptionClass, hc]
  · right; rfl
  · left; rfl
  · right; rfl

/-- run_backend propagates nothing: its body raises only Exception-derived
errors (FileNotFoundError, CalledProcessError), all caught and printed. -/
lemma run_backend_raised_none (env : Env) : (run_backend env).raised = none := by
  rcases env with ⟨bd, bo, bs, fo, it⟩
  cases bd
  · rfl
  · rcases bo with _ | c | _
    · rfl
    · by_cases hc : c = 0
      · subst hc; rfl
      · simp [run_backend, subprocessRun, handleExcept, PyExc.isExceptionClass, hc]
    · rfl

lemma launchCount_pos_of_mem {p : Proc} {l : List Action} (h : Action.launched p ∈ l) :
    1 ≤ launchCount p l := by
  induction l with
  | nil => cases h
  | cons a l ih =>
    rcases List.mem_cons.mp h with h | h
    · simp [launchCount, h.symm]
    · have := ih h
      simp [launchCount]
      omega

lemma launched_backend_not_mem_run_frontend (env : Env) (i : Bool) :
    Action.launched .backend ∉ (run_frontend env i).actions := by
  intro h
  have h1 := launchCount_pos_of_mem h
  rw [launchCount_run_frontend_backend] at h1
  omega

/-- Whole-trace bound: the backend is launched at most once per run. -/
lemma launchCount_trace_backend (env : Env) : launchCount Proc.backend (trace env) ≤ 1 := by
  rcases env with ⟨bd, bo, bs, fo, it⟩
  have h1 : launchCount Proc.backend [Action.registeredSigint] = 0 := rfl
  have h2 : launchCount Proc.backend startBanner = 0 := rfl
  have h3 : launchCount Proc.backend [Action.threadStarted] = 0 := rfl
  have h4 := launchCount_backendStart_backend ⟨bd, bo, bs, fo, it⟩
  have h5 := launchCount_backendRest Proc.backend ⟨bd, bo, bs, fo, it⟩
  have h6 : launchCount Proc.backend [Action.slept 2] = 0 := rfl
  have h7 : launchCount Proc.backend [Action.printed shutdownServersMsg, Action.sysExit 0] = 0 := rfl
  have hz : launchCount Proc.backend ([] : List Action) = 0 := rfl
  rcases it with _ | (_ | _) <;>
    simp only [trace, launchCount_append] <;>
    rw [h1, h2, h3] <;>
    [ (rw [launchCount_run_frontend_backend, launchCount_toplevelExcept,
        launchCount_ite_zero _ _ _ _ h5 hz, launchCount_ite_zero _ _ _ _ hz h5]);
      (rw [launchCount_ite_zero _ _ _ _ h5 hz]);
      (rw [launchCount_run_frontend_backend, launchCount_toplevelExcept,
        launchCount_ite_zero _ _ _ _ h5 hz, launchCount_ite_zero _ _ _ _ h7 hz])] <;>
    omega

/-- Whole-trace bound: the frontend is launched at most once per run. -/
lemma launchCount_trace_frontend (env : Env) : launchCount Proc.frontend (trace env) ≤ 1 := by
  rcases env with ⟨bd, bo, bs, fo, it⟩
  have h1 : launchCount Proc.frontend [Action.registeredSigint] = 0 := rfl
  have h2 : launchCount Proc.frontend startBanner = 0 := rfl
  have h3 : launchCount Proc.frontend [Action.threadStarted] = 0 := rfl
  have h4 := launchCount_backendStart_frontend ⟨bd, bo, bs, fo, it⟩
  have h5 := launchCount_backendRest Proc.frontend ⟨bd, bo, bs, fo, it⟩
  have h6 := launchCount_run_frontend_frontend ⟨bd, bo, bs, fo, it⟩
  have h7 : launchCount Proc.frontend [Action.printed shutdownServersMsg, Action.sysExit 0] = 0 := rfl
  have hz : launchCount Proc.frontend ([] : List Action) = 0 := rfl
  have h9 : launchCount Proc.frontend [Action.slept 2] = 0 := rfl
  rcases it with _ | (_ | _) <;>
    simp only [trace, launchCount_append] <;>
    rw [h1, h2, h3, h4] <;>
    [ (rw [launchCount_toplevelExcept,
        launchCount_ite_zero _ _ _ _ h5 hz, launchCount_ite_zero _ _ _ _ hz h5]);
      (rw [launchCount_ite_zero _ _ _ _ h5 hz]);
      (rw [launchCount_toplevelExcept,
        launchCount_ite_zero _ _ _ _ h5 hz, launchCount_ite_zero _ _ _ _ h7 hz])] <;>
    first
      | (have h8 := h6 false; omega)
      | (have h8 := h6 true; omega)

lemma launched_not_mem_toplevelExcept (p : Proc) (e : Option PyExc) :
    Action.launched p ∉ toplevelExcept e := by
  rcases e with _ | (_ | c | _ | c) <;> simp [toplevelExcept]

lemma launched_not_mem_backendRest (p : Proc) (env : Env) :
    Action.launched p ∉ backendRestActions env := by
  rcases env with ⟨bd, bo, bs, fo, it⟩
  cases bd <;> rcases bo with _ | c | _ <;> simp [backendRestActions]

/-- A backend launch action can only come from the daemon thread start
segment of the trace. -/
lemma launched_backend_in_start (env : Env) (h : Action.launched .backend ∈ trace env) :
    Action.launched .backend ∈ backendStartActions env := by
  rcases env with ⟨bd, bo, bs, fo, it⟩
  rcases it with _ | (_ | _) <;>
    simp only [trace, List.append_assoc, List.mem_append, List.mem_cons,
      List.not_mem_nil, or_false] at h <;>
    casesm* _ ∨ _
  all_goals
    first
      | assumption
      | (exfalso; simp_all [startBanner])
      | (exfalso; exact launched_backend_not_mem_run_frontend _ _ (by assumption))
      | (exfalso; exact launched_not_mem_toplevelExcept _ _ (by assumption))
      | skip
  all_goals rename_i hh
  all_goals exact launched_not_mem_backendRest _ _ hh.2

/-- Absent an interrupt, the fixed 2-second sleep always happens, whatever
became of the backend. -/
lemma slept_mem_trace (env : Env) (h : env.interrupt = none) :
    Action.slept 2 ∈ trace env := by
  rcases env with ⟨bd, bo, bs, fo, it⟩
  simp only at h
  subst h
  simp [trace]

/-- Absent an interrupt, the frontend is launched whenever its executable
spawns, whatever became of the backend. -/
lemma frontend_launched_mem_trace (env : Env) (hI : env.interrupt = none)
    (hfo : env.frontendOutcome ≠ .noSpawn) : Action.launched .frontend ∈ trace env := by
  obtain ⟨t, ht⟩ := run_frontend_actions_cons env false hfo
  rcases env with ⟨bd, bo, bs, fo, it⟩
  simp only at hI
  subst hI
  simp [trace, ht]

/-- Every interrupted execution prints the handler message and reaches
sys.exit(0). -/
lemma interrupt_sysExit_mem (env : Env) (h : env.interrupt.isSome = true) :
    Action.printed shutdownServersMsg ∈ trace env ∧ Action.sysExit 0 ∈ trace env := by
  rcases env with ⟨bd, bo, bs, fo, it⟩
  rcases it with _ | (_ | _)
  · simp at h
  · constructor <;> simp [trace]
  · rcases fo with _ | c | _ <;> constructor <;>
      simp [trace, run_frontend, subprocessRun, handleExcept, PyExc.isExceptionClass]

/-- C1 counterexample: in envC1 the required backend exits unexpectedly with
code 1 after being launched, while the frontend is launched and still running
(blocked in its wait), yet the frontend never receives a terminate() call.
This refutes the claim that every other still-running child is terminated
within one scheduling tick of an unexpected required-process exit. -/
theorem C1_counterexample :
    Action.exited .backend 1 ∈ trace envC1 ∧
    Action.launched .frontend ∈ trace envC1 ∧
    (run_frontend envC1 false).blocked = true ∧
    Action.terminated .frontend ∉ trace envC1 :=
  ⟨by decide, by decide, rfl, by decide⟩

/-- C1 (amended): when the required backend exits unexpectedly (exit code not
0), the script merely prints an error message from the daemon thread; no
terminate() is ever sent to the frontend or to any child, and the frontend is
left running. -/
theorem C1_amended_thm (env : Env) (c : Nat) (hbd : env.backendDirExists = true)
    (hbo : env.backendOutcome = .exits c) (hc : c ≠ 0) :
    Action.printed (backendErrMsg (.calledProcessError c)) ∈ (run_backend env).actions ∧
    Action.terminated .frontend ∉ trace env ∧
    Action.terminated .backend ∉ trace env := by
  refine ⟨?_, terminated_not_mem env .frontend, terminated_not_mem env .backend⟩
  rcases env with ⟨bd, bo, bs, fo, it⟩
  simp only at hbd hbo
  subst hbd
  subst hbo
  simp [run_backend, subprocessRun, handleExcept, PyExc.isExceptionClass, hc, backendErrMsg]

/-- C1 witness: the amended statement at envC1 with exit code 1. -/
theorem C1_witness :
    Action.printed (backendErrMsg (.calledProcessError 1)) ∈ (run_backend envC1).actions ∧
    Action.terminated .frontend ∉ trace envC1 ∧
    Action.terminated .backend ∉ trace envC1 :=
  C1_amended_thm envC1 1 rfl rfl (by decide)

/-- C2 counterexample: the claim requires exit code 1 exactly when a required
child failed unexpectedly and exit code 0 exactly for operator-initiated
shutdown; in envC2 the backend fails with code 1 and no interrupt ever
arrives, yet the script exits with code 0, not 1. -/
theorem C2_counterexample :
    envC2.backendOutcome = .exits 1 ∧ envC2.interrupt = none ∧
    scriptExit envC2 = some 0 ∧ ¬ scriptExit envC2 = some 1 :=
  ⟨rfl, rfl, by decide, by decide⟩

/-- C2 (amended): whenever the script process exits at all, its exit status
is 0: child failures and launch failures never influence it, and the exit
codes 1 and 2 never occur. -/
theorem C2_amended_thm (env : Env) (c : Nat) (h : scriptExit env = some c) : c = 0 := by
  rcases env with ⟨bd, bo, bs, fo, it⟩
  rcases it with _ | t
  · by_cases hb : (run_frontend ⟨bd, bo, bs, fo, none⟩ false).blocked
    · simp [scriptExit, hb] at h
    · simp [scriptExit, hb] at h
      omega
  · simp [scriptExit] at h
    omega

/-- C2 witness: the amended statement at envC2. -/
theorem C2_witness : scriptExit envC2 = some 0 ∧ (0 : Nat) = 0 :=
  ⟨by decide, C2_amended_thm envC2 0 (by decide)⟩

/-- C3 counterexample: in envC3 the backend working directory does not exist;
the resulting FileNotFoundError is caught inside run_backend, so nothing is
reported to the caller, and the startup sequence is not aborted: the frontend
is still launched.  The claim that a LaunchError reaches the caller and that
startup is aborted is false. -/
theorem C3_counterexample :
    envC3.backendDirExists = false ∧
    (run_backend envC3).raised = none ∧
    Action.printed (backendErrMsg .fileNotFoundError) ∈ (run_backend envC3).actions ∧
    Action.launched .backend ∉ trace envC3 ∧
    Action.launched .frontend ∈ trace envC3 :=
  ⟨rfl, rfl, by decide, by decide, by decide⟩

/-- C3 (amended): a failed backend launch (missing working directory or
executable) is swallowed inside run_backend: an error message is printed, no
exception reaches the caller, no backend process entry is created, and the
startup sequence continues: the fixed sleep still happens and the frontend is
still launched. -/
theorem C3_amended_thm (env : Env)
    (h : env.backendDirExists = false ∨ env.backendOutcome = .noSpawn) :
    (run_backend env).raised = none ∧
    Action.printed (backendErrMsg .fileNotFoundError) ∈ (run_backend env).actions ∧
    Action.launched .backend ∉ trace env ∧
    (env.interrupt = none → Action.slept 2 ∈ trace env) ∧
    (env.interrupt = none → env.frontendOutcome ≠ .noSpawn →
      Action.launched .frontend ∈ trace env) := by
  refine ⟨run_backend_raised_none env, ?_, ?_, fun hI => slept_mem_trace env hI,
    fun hI hfo => frontend_launched_mem_trace env hI hfo⟩
  · rcases env with ⟨bd, bo, bs, fo, it⟩
    simp only at h
    rcases h with h | h
    · subst h
      simp [run_backend, handleExcept, PyExc.isExceptionClass, backendErrMsg]
    · subst h
      cases bd <;>
        simp [run_backend, subprocessRun, handleExcept, PyExc.isExceptionClass, backendErrMsg]
  · intro hmem
    have hs := launched_backend_in_start env hmem
    rcases env with ⟨bd, bo, bs, fo, it⟩
    simp only at h
    rcases h with h | h
    · subst h
      simp [backendStartActions] at hs
    · subst h
      cases bd <;> simp [backendStartActions] at hs

/-- C3 witness: the amended statement at envC3. -/
theorem C3_witness :
    (run_backend envC3).raised = none ∧
    Action.launched .backend ∉ trace envC3 ∧
    Action.launched .frontend ∈ trace envC3 :=
  ⟨(C3_amended_thm envC3 (Or.inl rfl)).1,
   (C3_amended_thm envC3 (Or.inl rfl)).2.2.1,
   (C3_amended_thm envC3 (Or.inl rfl)).2.2.2.2 rfl (by decide)⟩

/-- C4 counterexample: an interrupt is received while both children are
running; the claim requires a terminate() call to every running child, but in
envC4 neither child ever receives one. -/
theorem C4_counterexample :
    envC4.interrupt.isSome = true ∧
    Action.launched .backend ∈ trace envC4 ∧
    Action.launched .frontend ∈ trace envC4 ∧
    Action.terminated .backend ∉ trace envC4 ∧
    Action.terminated .frontend ∉ trace envC4 :=
  ⟨rfl, by decide, by decide, by decide, by decide⟩

/-- C4 (amended): on interrupt the script prints the shutdown message and
exits immediately with status 0 via sys.exit(0); no child receives a
terminate() call, graceful or otherwise. -/
theorem C4_amended_thm (env : Env) (h : env.interrupt.isSome = true) :
    scriptExit env = some 0 ∧
    Action.printed shutdownServersMsg ∈ trace env ∧
    Action.sysExit 0 ∈ trace env ∧
    Action.terminated .backend ∉ trace env ∧
    Action.terminated .frontend ∉ trace env := by
  obtain ⟨h1, h2⟩ := interrupt_sysExit_mem env h
  refine ⟨?_, h1, h2, terminated_not_mem env .backend, terminated_not_mem env .frontend⟩
  rcases env with ⟨bd, bo, bs, fo, it⟩
  rcases it with _ | t
  · simp at h
  · rfl

/-- C4 witness: the amended statement at envC4. -/
theorem C4_witness : scriptExit envC4 = some 0 ∧ Action.sysExit 0 ∈ trace envC4 :=
  ⟨(C4_amended_thm envC4 rfl).1, (C4_amended_thm envC4 rfl).2.2.1⟩

/-- C5 counterexample: required process A (backend, no delay) exits with code
1 during the 2-second delay of B (frontend); the claim requires that B is
never launched and the final exit code is 1, but in envC5 the frontend is
launched anyway and the script exits with code 0. -/
theorem C5_counterexample :
    envC5.backendOutcome = .exits 1 ∧ envC5.backendExitsDuringSleep = true ∧
    envC5.interrupt = none ∧
    Action.exited .backend 1 ∈ trace envC5 ∧
    Action.launched .frontend ∈ trace envC5 ∧
    scriptExit envC5 = some 0 :=
  ⟨rfl, rfl, rfl, by decide, by decide, by decide⟩

/-- C5 (amended): an early unexpected backend exit does not stop the startup
sequence: the frontend is still launched after the fixed delay and, when the
frontend later exits on its own, the script ends with status 0. -/
theorem C5_amended_thm (env : Env) (c : Nat) (hbd : env.backendDirExists = true)
    (hbo : env.backendOutcome = .exits 1) (hbs : env.backendExitsDuringSleep = true)
    (hI : env.interrupt = none) (hfo : env.frontendOutcome = .exits c) :
    Action.exited .backend 1 ∈ trace env ∧
    Action.launched .frontend ∈ trace env ∧
    scriptExit env = some 0 := by
  refine ⟨?_, frontend_launched_mem_trace env hI (by simp [hfo]), ?_⟩
  · rcases env with ⟨bd, bo, bs, fo, it⟩
    simp only at hbd hbo hbs hI hfo
    subst hbd; subst hbo; subst hbs; subst hI; subst hfo
    simp [trace, backendRestActions]
  · rcases env with ⟨bd, bo, bs, fo, it⟩
    simp only at hI hfo
    subst hI; subst hfo
    simp [scriptExit, run_frontend, subprocessRun]

/-- C5 witness: the amended statement at envC5. -/
theorem C5_witness :
    Action.exited .backend 1 ∈ trace envC5 ∧
    Action.launched .frontend ∈ trace envC5 ∧
    scriptExit envC5 = some 0 :=
  C5_amended_thm envC5 0 rfl rfl rfl rfl rfl

/-- C6: startup order and fixed delay: absent an interrupt the fixed 2-second
sleep always happens (whatever became of the backend), the frontend launch
attempt is made regardless of the backend state, and when both executables
spawn the trace contains the backend launch, then the sleep, then immediately
the frontend launch, in that order. -/
theorem C6_thm (env : Env) (hI : env.interrupt = none) :
    Action.slept 2 ∈ trace env ∧
    (env.frontendOutcome ≠ .noSpawn → Action.launched .frontend ∈ trace env) ∧
    (env.backendDirExists = true → env.backendOutcome ≠ .noSpawn →
      env.frontendOutcome ≠ .noSpawn →
      ∃ l₁ l₂ l₃, trace env =
        l₁ ++ [Action.launched .backend] ++ l₂ ++ [Action.slept 2] ++
          [Action.launched .frontend] ++ l₃) := by
  refine ⟨slept_mem_trace env hI, fun hfo => frontend_launched_mem_trace env hI hfo,
    fun hbd hbo hfo => ?_⟩
  obtain ⟨t, ht⟩ := run_frontend_actions_cons env false hfo
  have hstart := backendStartActions_launch env hbd hbo
  rcases env with ⟨bd, bo, bs, fo, it⟩
  simp only at hI
  subst hI
  cases bs
  · refine ⟨[Action.registeredSigint] ++ startBanner ++ [Action.threadStarted], [],
      t ++ toplevelExcept (run_frontend ⟨bd, bo, false, fo, none⟩ false).raised ++
        backendRestActions ⟨bd, bo, false, fo, none⟩, ?_⟩
    simp only [trace]
    rw [hstart, ht]
    simp
  · refine ⟨[Action.registeredSigint] ++ startBanner ++ [Action.threadStarted],
      backendRestActions ⟨bd, bo, true, fo, none⟩,
      t ++ toplevelExcept (run_frontend ⟨bd, bo, true, fo, none⟩ false).raised, ?_⟩
    simp only [trace]
    rw [hstart, ht]
    simp

/-- C6 witness: the startup order at the clean run envC6. -/
theorem C6_witness :
    Action.slept 2 ∈ trace envC6 ∧
    ∃ l₁ l₂ l₃, trace envC6 =
      l₁ ++ [Action.launched .backend] ++ l₂ ++ [Action.slept 2] ++
        [Action.launched .frontend] ++ l₃ :=
  ⟨(C6_thm envC6 rfl).1, (C6_thm envC6 rfl).2.2 rfl (by decide) (by decide)⟩

/-- C7 counterexample: the claim requires that terminate() first sends a
graceful signal and only then, after the grace period, a forceful kill.  In
envC7 the script shuts down on an interrupt while the frontend child runs and
never exits on its own: the child is forcefully killed at once by the except
clause of subprocess.run, with no terminate() ever issued and no grace
period — the graceful-first protocol does not exist in the program. -/
theorem C7_counterexample :
    scriptExit envC7 = some 0 ∧
    Action.launched .frontend ∈ trace envC7 ∧
    exitedCount .frontend (trace envC7) = 0 ∧
    Action.terminated .frontend ∉ trace envC7 ∧
    Action.killed .frontend ∈ trace envC7 :=
  ⟨by decide, by decide, by decide, by decide, by decide⟩

/-- C7 (amended): the script never sends a graceful terminate() to any child.
When the interrupt arrives while the script waits on a spawned frontend
child, the except clause of subprocess.run kills that child immediately, with
no preceding graceful signal and no grace period; absent an interrupt no
child is ever killed, and the backend child is never signalled at all. -/
theorem C7_amended_thm (env : Env) (p : Proc) :
    Action.terminated p ∉ trace env ∧
    Action.killed .backend ∉ trace env ∧
    (env.interrupt = none → Action.killed p ∉ trace env) ∧
    (env.interrupt = some .duringFrontend → env.frontendOutcome ≠ .noSpawn →
      Action.killed .frontend ∈ trace env) :=
  ⟨terminated_not_mem env p, killed_backend_not_mem env,
   fun hI => killed_not_mem_of_no_interrupt env p hI,
   fun hI hfo => killed_frontend_mem env hI hfo⟩

/-- C7 witness: no kill on the uninterrupted run envC7b; an immediate kill of
the frontend child on the interrupted run envC7. -/
theorem C7_witness :
    Action.killed .frontend ∉ trace envC7b ∧
    Action.killed .frontend ∈ trace envC7 :=
  ⟨(C7_amended_thm envC7b .frontend).2.2.1 rfl,
   (C7_amended_thm envC7 .frontend).2.2.2 rfl (by decide)⟩

/-- C8: at most one RunningProcess exists per ProcessSpec name: in every
execution each configured process (backend, frontend) is launched at most
once. -/
theorem C8_thm (env : Env) :
    launchCount Proc.backend (trace env) ≤ 1 ∧
    launchCount Proc.frontend (trace env) ≤ 1 :=
  ⟨launchCount_trace_backend env, launchCount_trace_frontend env⟩

/-- C9 counterexample: run_frontend does propagate an exception to its
caller: when SIGINT arrives while run_frontend waits on its child, the
handler raises SystemExit(0), which neither the KeyboardInterrupt clause nor
the Exception clause catches, so the function does not return normally. -/
theorem C9_counterexample :
    envC9.interrupt = some .duringFrontend ∧
    (run_frontend envC9 true).raised = some (.systemExit 0) ∧
    Action.sysExit 0 ∈ trace envC9 :=
  ⟨rfl, rfl, by decide⟩

/-- C9 (amended): run_backend never propagates an exception; run_frontend
propagates at most the SystemExit(0) raised by the interrupt handler, and
nothing when no interrupt arrives; every Exception-derived error is caught
with a printed message and KeyboardInterrupt is passed silently; a backend
failure changes neither the frontend launch nor the script exit status. -/
theorem C9_amended_thm (env : Env) (i : Bool) (s : String) :
    (run_backend env).raised = none ∧
    (run_frontend env false).raised = none ∧
    ((run_frontend env i).raised = none ∨
      (run_frontend env i).raised = some (.systemExit 0)) ∧
    handleExcept s (some .keyboardInterrupt) = ([], none) ∧
    (∀ e : PyExc, e.isExceptionClass = true →
      handleExcept s (some e) = ([.printed (s ++ e.message)], none)) ∧
    scriptExit env =
      scriptExit { env with backendDirExists := true, backendOutcome := .exits 0 } ∧
    (env.interrupt = none → env.frontendOutcome ≠ .noSpawn →
      Action.launched .frontend ∈ trace env) := by
  refine ⟨run_backend_raised_none env, run_frontend_raised_none env,
    run_frontend_raised_cases env i, rfl, ?_, ?_,
    fun hI hfo => frontend_launched_mem_trace env hI hfo⟩
  · intro e he
    rcases e with _ | c | _ | c
    · simp [PyExc.isExceptionClass] at he
    · simp [PyExc.isExceptionClass] at he
    · rfl
    · rfl
  · rcases env with ⟨bd, bo, bs, fo, it⟩
    rcases it with _ | t <;> rfl

/-- C9 witness: the amended statement at envC9b with the hypotheses of the
conditional conjuncts discharged. -/
theorem C9_witness :
    (run_backend envC9b).raised = none ∧
    handleExcept "Backend error: " (some .fileNotFoundError) =
      ([.printed ("Backend error: " ++ PyExc.fileNotFoundError.message)], none) ∧
    Action.launched .frontend ∈ trace envC9b :=
  ⟨(C9_amended_thm envC9b true "Backend error: ").1,
   (C9_amended_thm envC9b true "Backend error: ").2.2.2.2.1 .fileNotFoundError rfl,
   (C9_amended_thm envC9b true "Backend error: ").2.2.2.2.2.2 rfl (by decide)⟩

/-- C10 counterexample: it is not true that no execution sends a termination
or kill signal to a child: when the interrupt arrives while the script waits
on the frontend child, the subprocess.run call the script makes kills the
frontend child (the kill issued by its except clause when the SystemExit of
the handler propagates). -/
theorem C10_counterexample :
    envC10k.interrupt = some .duringFrontend ∧
    Action.launched .frontend ∈ trace envC10k ∧
    Action.killed .frontend ∈ trace envC10k :=
  ⟨rfl, by decide, by decide⟩

/-- C10 (amended): the script never sends a graceful terminate() to any
child; the only signal any execution sends is the kill of the frontend child
by the except clause of subprocess.run on an interrupt during the frontend
wait — in particular the backend child is never signalled and no kill occurs
without an interrupt.  On interrupt the script reaches sys.exit(0) and exits
with status 0; and, per envC10, it can exit with status 0 while the backend
child is still running (the daemon thread still blocked in its wait, its
exit never observed), without waiting for it. -/
theorem C10_thm :
    (∀ (env : Env) (p : Proc), Action.terminated p ∉ trace env) ∧
    (∀ env : Env, Action.killed .backend ∉ trace env) ∧
    (∀ (env : Env) (p : Proc), env.interrupt = none → Action.killed p ∉ trace env) ∧
    (∀ env : Env, env.interrupt.isSome = true →
      Action.sysExit 0 ∈ trace env ∧ scriptExit env = some 0) ∧
    (scriptExit envC10 = some 0 ∧ Action.launched .backend ∈ trace envC10 ∧
      (run_backend envC10).blocked = true ∧ exitedCount .backend (trace envC10) = 0) := by
  refine ⟨fun env p => terminated_not_mem env p, fun env => killed_backend_not_mem env,
    fun env p hI => killed_not_mem_of_no_interrupt env p hI, fun env h => ?_, ?_⟩
  · refine ⟨(interrupt_sysExit_mem env h).2, ?_⟩
    rcases env with ⟨bd, bo, bs, fo, it⟩
    rcases it with _ | t
    · simp at h
    · rfl
  · exact ⟨by decide, by decide, rfl, by decide⟩

/-- C10 witness: the conditional conjuncts discharged at envC10 (no kill
without interrupt) and envC10i (interrupted run reaching sys.exit(0)). -/
theorem C10_witness :
    Action.killed .frontend ∉ trace envC10 ∧
    (Action.sysExit 0 ∈ trace envC10i ∧ scriptExit envC10i = some 0) :=
  ⟨C10_thm.2.2.1 envC10 .frontend rfl, C10_thm.2.2.2.1 envC10i rfl⟩

end StartDev
